import Mathlib

/-!
Shallow embedding of the Smart-Biz frontend (React/TypeScript) API-client and
page-handler logic, with theorems settling the specification claims.

The embedding models:
  * browser-global state visible to the axios clients (local storage, location);
  * the two axios client singletons: `apiClient` (pages app, services/api.ts,
    src/unnamed/part_001) and `api` (components app, src/unnamed/part_002);
  * the page components' API-call handlers as pure state-transition functions
    returning the new component state together with the list of HTTP requests
    the handler issues.

JavaScript string truthiness (null and the empty string are falsy) is made
explicit, since the source guards token handling with `if (token)` / `!!token`.
-/

namespace SmartBiz

/-- JS `a || b` where `a` is a possibly-absent string: `null`/`undefined` and
the empty string are falsy, so they fall through to the default `b`. -/
def jsOr : Option String → String → String
  | some v, d => if v = "" then d else v
  | none, d => d

/-- JS truthiness of a `localStorage.getItem` result: `null` and `""` are
falsy, every other string is truthy. -/
def jsTruthy : Option String → Bool
  | some v => v != ""
  | none => false

/-- JS `String.prototype.trim`: strip leading and trailing whitespace. -/
def jsTrim (s : String) : String :=
  ⟨((s.data.dropWhile Char.isWhitespace).reverse.dropWhile Char.isWhitespace).reverse⟩

/-- Browser-global state the API clients read and write: the `token` and
`user` entries of local storage and `window.location.href`. -/
structure BrowserState where
  token : Option String
  user : Option String
  location : String
deriving DecidableEq, Repr

/-- An outgoing axios request configuration, restricted to the fields the
interceptors touch. -/
structure RequestConfig where
  url : String
  authorization : Option String
deriving DecidableEq, Repr

/-- Request interceptor of `apiClient` (src/unnamed/part_001, lines 562-568):
`const token = localStorage.getItem('token'); if (token) {
config.headers.Authorization = `Bearer ${token}`; } return config;`.
The `if (token)` test is JS truthiness, so an absent or empty token leaves the
config untouched. -/
def apiClientRequestInterceptor (store : BrowserState) (config : RequestConfig) :
    RequestConfig :=
  match store.token with
  | some t => if t = "" then config else { config with authorization := some ("Bearer " ++ t) }
  | none => config

/-- Request interceptor of `api` (src/unnamed/part_002, lines 21-27): same
code as `apiClient`'s request interceptor, registered on the components app's
client singleton. -/
def apiRequestInterceptor (store : BrowserState) (config : RequestConfig) :
    RequestConfig :=
  match store.token with
  | some t => if t = "" then config else { config with authorization := some ("Bearer " ++ t) }
  | none => config

/-- Outcome of an HTTP exchange as an axios response interceptor sees it:
either the success channel with the response status, or the error channel,
where `error.response?.status` may be absent (network error). -/
inductive AxiosOutcome where
  | success (status : Nat)
  | failure (status : Option Nat)
deriving DecidableEq, Repr

/-- Axios's default `validateStatus` routes exactly the statuses in
`[200, 300)` to the success channel; the error channel carries anything. -/
def AxiosOutcome.valid : AxiosOutcome → Prop
  | .success st => 200 ≤ st ∧ st < 300
  | .failure _ => True

/-- The response status carried by an outcome, when one exists. -/
def AxiosOutcome.status? : AxiosOutcome → Option Nat
  | .success st => some st
  | .failure st => st

/-- Response interceptor of `apiClient` (src/unnamed/part_001, lines 571-580):
success responses pass through unchanged; on an error whose
`error.response?.status === 401`, the `token` entry is removed from local
storage and `window.location.href` is set to `/login`; any other error leaves
the browser state unchanged. -/
def apiClientResponseInterceptor (outcome : AxiosOutcome) (s : BrowserState) :
    BrowserState :=
  match outcome with
  | .success _ => s
  | .failure st =>
      if st = some 401 then { s with token := none, location := "/login" } else s

/-- Response handling of `api` (src/unnamed/part_002): this client registers
no response interceptor, so every response and error passes through without
touching the stored token or the browser location. -/
def apiResponseHandling (_outcome : AxiosOutcome) (s : BrowserState) :
    BrowserState := s

/-- HTTP requests the modelled page handlers can issue through the clients. -/
inductive ApiRequest where
  | listInvoices
  | deleteInvoice (id : String)
  | chatQuery (query : String)
  | verifyGst (gstin : String)
  | dashboardOverview
deriving DecidableEq, Repr

/-- An axios error as the catch blocks inspect it: `err.response?.data?.detail`
and `err.message`, each possibly absent. -/
structure ApiError where
  detail : Option String
  message : Option String
deriving DecidableEq, Repr

/-- Observable effects of one catch block: console log labels, an inline error
panel message (set via an error state variable), a blocking `alert` dialog
message, and an error message appended to the chat transcript. -/
structure HandlerOutput where
  consoleLogs : List String
  inlinePanel : Option String
  alertDialog : Option String
  chatAppend : Option String
deriving DecidableEq, Repr

/-- Whether a catch block's effects surface the failure to the user: an inline
panel, an alert dialog, or an appended chat error message. -/
def HandlerOutput.surfaced (o : HandlerOutput) : Bool :=
  o.inlinePanel.isSome || o.alertDialog.isSome || o.chatAppend.isSome

/-- Catch block of `loadInvoices` (components/Invoices.tsx): logs
`console.error('Error loading invoices:', err)` and sets the inline error
state to `err.response?.data?.detail || 'Failed to load invoices'`. -/
def loadInvoicesCatch (err : ApiError) : HandlerOutput :=
  { consoleLogs := ["Error loading invoices:"]
    inlinePanel := some (jsOr err.detail "Failed to load invoices")
    alertDialog := none
    chatAppend := none }

/-- Catch block of `handleDownload` (components/Invoices.tsx): logs
`console.error('Error downloading invoice:', err)` and shows
`alert(err.response?.data?.detail || 'Failed to download invoice')`. -/
def handleDownloadCatch (err : ApiError) : HandlerOutput :=
  { consoleLogs := ["Error downloading invoice:"]
    inlinePanel := none
    alertDialog := some (jsOr err.detail "Failed to download invoice")
    chatAppend := none }

/-- Catch block of `handleDelete` (components/Invoices.tsx): logs
`console.error('Error deleting invoice:', err)` and shows
`alert(err.response?.data?.detail || 'Failed to delete invoice')`. -/
def handleDeleteCatch (err : ApiError) : HandlerOutput :=
  { consoleLogs := ["Error deleting invoice:"]
    inlinePanel := none
    alertDialog := some (jsOr err.detail "Failed to delete invoice")
    chatAppend := none }

/-- Catch block of `handleSendMessage` (components/Dashboard.tsx): logs
`console.error('Chat error:', error)` and appends an assistant message
`Sorry, I encountered an error: ` ++ `error.response?.data?.detail ||
error.message || 'Please try again.'` to the transcript. -/
def handleSendMessageCatch (err : ApiError) : HandlerOutput :=
  { consoleLogs := ["Chat error:"]
    inlinePanel := none
    alertDialog := none
    chatAppend := some ("Sorry, I encountered an error: " ++
      jsOr err.detail (jsOr err.message "Please try again.")) }

/-- Catch block of `handleVerify` (GSTCompliance, components/Dashboard.tsx):
sets the inline error state to `err.response?.data?.detail || 'Failed to
verify GST number'` and performs no console logging. -/
def gstVerifyCatch (err : ApiError) : HandlerOutput :=
  { consoleLogs := []
    inlinePanel := some (jsOr err.detail "Failed to verify GST number")
    alertDialog := none
    chatAppend := none }

/-- Catch block of `fetchDashboardData` (DashboardAnalytics,
src/unnamed/part_002): logs `console.error('Error fetching dashboard data:',
err)` and `console.error('Error details:', errorMsg)`, and sets the inline
error state to `err.response?.data?.detail || err.message || 'Failed to load
dashboard data'`. -/
def fetchAnalyticsCatch (err : ApiError) : HandlerOutput :=
  { consoleLogs := ["Error fetching dashboard data:", "Error details:"]
    inlinePanel := some (jsOr err.detail (jsOr err.message "Failed to load dashboard data"))
    alertDialog := none
    chatAppend := none }

/-- Catch block of `fetchInvoices` (pages Invoices, src/unnamed/part_000 and
src/unnamed/part_001): logs `console.error('Error fetching invoices:',
error)` and nothing else; no error state or dialog is set. -/
def pagesFetchInvoicesCatch (_err : ApiError) : HandlerOutput :=
  { consoleLogs := ["Error fetching invoices:"]
    inlinePanel := none
    alertDialog := none
    chatAppend := none }

/-- Catch block of `fetchDashboardData` (pages Dashboard,
src/unnamed/part_001): logs `console.error('Error fetching dashboard data:',
error)` and nothing else; no error state or dialog is set. -/
def pagesFetchDashboardCatch (_err : ApiError) : HandlerOutput :=
  { consoleLogs := ["Error fetching dashboard data:"]
    inlinePanel := none
    alertDialog := none
    chatAppend := none }

/-- Catch block of `handleDownload` (pages Invoices, src/unnamed/part_000):
logs the error and shows `alert(error.message || 'Failed to download invoice
PDF. Please check the console for details.')`. -/
def pagesHandleDownloadCatch (err : ApiError) : HandlerOutput :=
  { consoleLogs := ["Error downloading invoice:"]
    inlinePanel := none
    alertDialog := some (jsOr err.message
      "Failed to download invoice PDF. Please check the console for details.")
    chatAppend := none }

/-- The API-call failure handlers of the page components. -/
inductive PageCall where
  | loadInvoices
  | downloadInvoice
  | deleteInvoice
  | sendChat
  | verifyGst
  | fetchAnalytics
  | pagesFetchInvoices
  | pagesFetchDashboard
  | pagesDownloadInvoice
deriving DecidableEq, Repr

/-- Dispatch from a page API call to its own catch block's effects: every
call's failure is handled inside that call's handler. -/
def catchEffect : PageCall → ApiError → HandlerOutput
  | .loadInvoices, e => loadInvoicesCatch e
  | .downloadInvoice, e => handleDownloadCatch e
  | .deleteInvoice, e => handleDeleteCatch e
  | .sendChat, e => handleSendMessageCatch e
  | .verifyGst, e => gstVerifyCatch e
  | .fetchAnalytics, e => fetchAnalyticsCatch e
  | .pagesFetchInvoices, e => pagesFetchInvoicesCatch e
  | .pagesFetchDashboard, e => pagesFetchDashboardCatch e
  | .pagesDownloadInvoice, e => pagesHandleDownloadCatch e

/-- An invoice as the frontend renders it (types.ts `Invoice`), restricted to
the fields the list page uses. -/
structure Invoice where
  id : String
  invoice_number : String
  customer_id : String
  created_at : String
  due_date : String
  total_amount : Int
  status : String
deriving DecidableEq, Repr

/-- `handleDelete` (components/Invoices.tsx, lines 38-48) as a transition on
the rendered invoice list, parameterised by whether the user confirms the
dialog and whether the backend DELETE call succeeds. Declining the dialog
returns before any call. On success the component filters the deleted id out
of its local state (`setInvoices(invoices.filter((inv) => inv.id !== id))`);
it does not refetch the list. On failure the catch block alerts and the list
state is untouched. The second component is the list of requests issued. -/
def handleDelete (confirmed succeeded : Bool) (id : String)
    (invoices : List Invoice) : List Invoice × List ApiRequest :=
  if !confirmed then (invoices, [])
  else if succeeded then
    (invoices.filter (fun inv => inv.id != id), [.deleteInvoice id])
  else (invoices, [.deleteInvoice id])

/-- A chat transcript entry (types.ts `ChatMessage`). -/
structure ChatMessage where
  role : String
  content : String
  timestamp : Option String
deriving DecidableEq, Repr

/-- The chat response body as `handleSendMessage` reads it: it probes both
`response.response` and `response.reply`. -/
structure ChatResponseData where
  response : Option String
  reply : Option String
deriving DecidableEq, Repr

/-- Outcome of the `chatAPI.sendQuery` call. -/
inductive ChatOutcome where
  | success (data : ChatResponseData)
  | failure (err : ApiError)
deriving DecidableEq, Repr

/-- Local state of the chat Dashboard component (components/Dashboard.tsx). -/
structure ChatState where
  messages : List ChatMessage
  inputMessage : String
  loading : Bool
deriving DecidableEq, Repr

/-- `handleSendMessage` (components/Dashboard.tsx, lines 20-57) as a state
transition: the guard `if (!inputMessage.trim() || loading) return;` sends
nothing when the trimmed input is empty or a query is still loading.
Otherwise the user message is appended, the input cleared, the query sent
with the captured input, and a success or error assistant message appended;
`finally` clears the loading flag. `now` stands for `new
Date().toISOString()`. -/
def handleSendMessage (now : String) (o : ChatOutcome) (s : ChatState) :
    ChatState × List ApiRequest :=
  if jsTrim s.inputMessage = "" ∨ s.loading = true then (s, [])
  else
    let userMsg : ChatMessage :=
      { role := "user", content := s.inputMessage, timestamp := some now }
    let reply : ChatMessage :=
      match o with
      | .success data =>
          { role := "assistant"
            content := jsOr data.response (jsOr data.reply "No response received")
            timestamp := some now }
      | .failure err =>
          { role := "assistant"
            content := "Sorry, I encountered an error: " ++
              jsOr err.detail (jsOr err.message "Please try again.")
            timestamp := some now }
    ({ messages := s.messages ++ [userMsg, reply], inputMessage := "", loading := false },
     [.chatQuery s.inputMessage])

/-- A GST verification response (types.ts `GSTVerificationResponse`). -/
structure GSTVerificationResponse where
  gstin : String
  legal_name : String
  trade_name : Option String
  status : String
  state : String
  address : Option String
  verified : Bool
deriving DecidableEq, Repr

/-- Outcome of the `gstAPI.verify` call; a failure carries
`err.response?.data?.detail`. -/
inductive VerifyOutcome where
  | success (r : GSTVerificationResponse)
  | failure (detail : Option String)
deriving DecidableEq, Repr

/-- Local state of the GSTCompliance component (components/Dashboard.tsx). -/
structure GstState where
  gstin : String
  loading : Bool
  result : Option GSTVerificationResponse
  error : String
deriving DecidableEq, Repr

/-- The writes `handleVerify` performs before awaiting the call:
`setLoading(true); setError(''); setResult(null);`. -/
def handleVerifyStart (s : GstState) : GstState :=
  { s with loading := true, error := "", result := none }

/-- The writes `handleVerify` performs once the call settles: on success
`setResult(response)`, on failure `setError(err.response?.data?.detail ||
'Failed to verify GST number')`; `finally` runs `setLoading(false)`. -/
def handleVerifyFinish (o : VerifyOutcome) (s : GstState) : GstState :=
  match o with
  | .success r => { s with result := some r, loading := false }
  | .failure detail =>
      { s with error := jsOr detail "Failed to verify GST number", loading := false }

/-- `handleVerify` (GSTCompliance, components/Dashboard.tsx, lines 173-189):
the guard `if (!gstin.trim()) return;` rejects blank input; an accepted
submission clears the previous error and result, issues `GET
/gst/verify?gstin=...` with the current `gstin` state, and records the
outcome. -/
def handleVerify (o : VerifyOutcome) (s : GstState) : GstState × List ApiRequest :=
  if jsTrim s.gstin = "" then (s, [])
  else (handleVerifyFinish o (handleVerifyStart s), [.verifyGst s.gstin])

/-- JS string truncation performed by the browser for an input with
`maxLength={n}`: the field's value never exceeds `n` characters. -/
def jsMaxLength (n : Nat) (s : String) : String := ⟨s.data.take n⟩

/-- JS `String.prototype.toUpperCase` on the basic plane: uppercase each
character. -/
def jsToUpper (s : String) : String := ⟨s.data.map Char.toUpper⟩

/-- The GSTIN input's onChange (GSTCompliance, components/Dashboard.tsx,
line 210) combined with the input's `maxLength={15}`: the browser caps the
typed value at 15 characters and the handler stores
`e.target.value.toUpperCase()`. -/
def gstInputUpdate (raw : String) : String := jsToUpper (jsMaxLength 15 raw)

/-- Dashboard overview statistics (DashboardAnalytics, src/unnamed/part_002). -/
structure DashboardStats where
  total_revenue : Int
  pending_invoices : Int
  pending_amount : Int
  monthly_revenue : Int
  total_invoices : Int
deriving DecidableEq, Repr

/-- Outcome of the dashboard overview fetch. -/
inductive FetchOutcome where
  | success (stats : DashboardStats)
  | failure (err : ApiError)
deriving DecidableEq, Repr

/-- Local state of the DashboardAnalytics component (src/unnamed/part_002). -/
structure AnalyticsState where
  stats : Option DashboardStats
  loading : Bool
  error : Option String
deriving DecidableEq, Repr

/-- `fetchDashboardData` (DashboardAnalytics, src/unnamed/part_002, lines
147-171): sets loading, clears the error, issues exactly one `GET
/dashboard/overview`, then records the stats or the error message; `finally`
clears the loading flag. No retry happens inside the handler. -/
def fetchDashboardData (o : FetchOutcome) (s : AnalyticsState) :
    AnalyticsState × List ApiRequest :=
  match o with
  | .success st =>
      ({ stats := some st, loading := false, error := none }, [.dashboardOverview])
  | .failure err =>
      ({ s with loading := false
                error := some (jsOr err.detail (jsOr err.message "Failed to load dashboard data")) },
       [.dashboardOverview])

/-- Events driving the DashboardAnalytics component: the mount effect, a
click on the error screen's Retry button, and time passing with no user
action. -/
inductive AnalyticsEvent where
  | mount
  | retryClick
  | tick
deriving DecidableEq, Repr

/-- Whether an event is one of the two triggers that call
`fetchDashboardData`: the mount effect or the Retry button's onClick. -/
def AnalyticsEvent.triggersFetch : AnalyticsEvent → Bool
  | .mount => true
  | .retryClick => true
  | .tick => false

/-- One step of the DashboardAnalytics component: only the mount effect and
the Retry click call `fetchDashboardData`; nothing else in the component
issues a request. -/
def analyticsStep (s : AnalyticsState) (e : AnalyticsEvent) (o : FetchOutcome) :
    AnalyticsState × List ApiRequest :=
  match e with
  | .mount => fetchDashboardData o s
  | .retryClick => fetchDashboardData o s
  | .tick => (s, [])

/-- A run of the DashboardAnalytics component over a sequence of events with
their fetch outcomes, accumulating every request issued. -/
def analyticsRun (s : AnalyticsState) :
    List (AnalyticsEvent × FetchOutcome) → AnalyticsState × List ApiRequest
  | [] => (s, [])
  | (e, o) :: rest =>
      ((analyticsRun (analyticsStep s e o).1 rest).1,
       (analyticsStep s e o).2 ++ (analyticsRun (analyticsStep s e o).1 rest).2)

/-- Mount effect of the components `App` (components/Dashboard.tsx, lines
401-407): `isAuthenticated` starts false and the effect runs `const token =
localStorage.getItem('token'); if (token) setIsAuthenticated(true);` — a JS
truthiness test. -/
def appMountAuthenticated (store : BrowserState) : Bool :=
  if jsTruthy store.token then true else false

/-- `checkAuth` of the pages `App` (src/unnamed/part_004, lines 13-16):
`setIsAuthenticated(!!localStorage.getItem('token'))`. -/
def checkAuth (store : BrowserState) : Bool := jsTruthy store.token

/-- What the components `App` renders. -/
inductive AppView where
  | login
  | register
  | mainApp
deriving DecidableEq, Repr

/-- Render logic of the components `App`: unauthenticated users see the Login
or Register screen; authenticated users see the sidebar plus active screen. -/
def appRender (isAuthenticated showRegister : Bool) : AppView :=
  if !isAuthenticated then (if showRegister then .register else .login) else .mainApp

/-- Target of a guarded route in the pages `App` (src/unnamed/part_004):
`isAuthenticated ? <Page /> : <Navigate to="/login" />`. -/
inductive RouteTarget where
  | page
  | redirectLogin
deriving DecidableEq, Repr

/-- Guard of the protected routes in the pages `App`. -/
def protectedRoute (isAuthenticated : Bool) : RouteTarget :=
  if isAuthenticated then .page else .redirectLogin

/-- Helper: the JS `a || b` fallback is never empty when the default is a
nonempty string. -/
theorem jsOr_ne_of_default_ne (o : Option String) (d : String) (hd : d ≠ "") :
    jsOr o d ≠ "" := by
  cases o with
  | none => exact hd
  | some v =>
      by_cases hv : v = ""
      · simp only [jsOr, if_pos hv]
        exact hd
      · simp only [jsOr, if_neg hv]
        exact hv

/-- C1, counterexample: the components app's shared client `api`
(src/unnamed/part_002) registers no response interceptor, so a 401 response
through it leaves the stored token in place and the browser location
untouched, contradicting the claim that every 401 through the shared API
client removes the token and redirects to /login. -/
theorem api_client_401_keeps_token_and_location :
    (apiResponseHandling (.failure (some 401)) ⟨some "tok", none, "/dashboard"⟩).token
      = some "tok" ∧
    (apiResponseHandling (.failure (some 401)) ⟨some "tok", none, "/dashboard"⟩).location
      = "/dashboard" :=
  ⟨rfl, rfl⟩

/-- C1, amended: through the pages app's client `apiClient`
(src/unnamed/part_001), a 401 removes the token and redirects to /login and
any other outcome leaves the browser state unchanged; the components app's
client `api` (src/unnamed/part_002) has no response interceptor, so every
outcome through it leaves the browser state unchanged. -/
theorem apiClient_401_clears_token_api_does_not (o : AxiosOutcome)
    (s : BrowserState) (hv : o.valid) :
    (o.status? = some 401 →
      apiClientResponseInterceptor o s = { s with token := none, location := "/login" }) ∧
    (o.status? ≠ some 401 → apiClientResponseInterceptor o s = s) ∧
    apiResponseHandling o s = s := by
  refine ⟨?_, ?_, rfl⟩
  · intro h
    cases o with
    | success st =>
        simp only [AxiosOutcome.status?, Option.some.injEq] at h
        obtain ⟨h1, h2⟩ := hv
        omega
    | failure st =>
        simp only [AxiosOutcome.status?] at h
        simp [apiClientResponseInterceptor, h]
  · intro h
    cases o with
    | success st => rfl
    | failure st =>
        simp only [AxiosOutcome.status?] at h
        simp [apiClientResponseInterceptor, h]

/-- Witness for the amended C1 theorem at a concrete 401 error. -/
theorem apiClient_401_clears_token_api_does_not_witness :
    AxiosOutcome.valid (.failure (some 401)) ∧
    apiClientResponseInterceptor (.failure (some 401)) ⟨some "t", none, "/home"⟩
      = ⟨none, none, "/login"⟩ :=
  ⟨trivial,
   (apiClient_401_clears_token_api_does_not (.failure (some 401))
      ⟨some "t", none, "/home"⟩ trivial).1 rfl⟩

/-- C2, counterexample: local storage can hold the empty string under the
token key; both request interceptors test the token with JS truthiness, so a
stored empty-string token attaches no Authorization header, contradicting the
claim for the stored value t = "". -/
theorem empty_token_attaches_no_header :
    (BrowserState.mk (some "") none "/").token.isSome = true ∧
    (apiClientRequestInterceptor ⟨some "", none, "/"⟩ ⟨"/invoices/list", none⟩).authorization
      = none ∧
    (apiRequestInterceptor ⟨some "", none, "/"⟩ ⟨"/invoices/list", none⟩).authorization
      = none :=
  ⟨rfl, rfl, rfl⟩

/-- C2, amended: if local storage holds a nonempty token t, both clients'
request interceptors set the Authorization header to "Bearer " followed by t
and change nothing else; if the token is absent or empty (JS-falsy), the
request config passes through unchanged. -/
theorem request_interceptors_attach_bearer (store : BrowserState)
    (config : RequestConfig) :
    (∀ t, store.token = some t → t ≠ "" →
      apiClientRequestInterceptor store config =
        { config with authorization := some ("Bearer " ++ t) } ∧
      apiRequestInterceptor store config =
        { config with authorization := some ("Bearer " ++ t) }) ∧
    (jsTruthy store.token = false →
      apiClientRequestInterceptor store config = config ∧
      apiRequestInterceptor store config = config) := by
  obtain ⟨tok, u, loc⟩ := store
  cases tok with
  | none =>
      exact ⟨fun t ht => absurd ht (by simp), fun _ => ⟨rfl, rfl⟩⟩
  | some v =>
      constructor
      · intro t ht hne
        obtain rfl : v = t := by injection ht
        constructor <;>
          simp [apiClientRequestInterceptor, apiRequestInterceptor, hne]
      · intro hfalse
        have hv : v = "" := by simpa [jsTruthy] using hfalse
        constructor <;>
          simp [apiClientRequestInterceptor, apiRequestInterceptor, hv]

/-- Witness for the amended C2 theorem at a concrete stored token. -/
theorem request_interceptors_attach_bearer_witness :
    (BrowserState.mk (some "abc") none "/").token = some "abc" ∧
    apiClientRequestInterceptor ⟨some "abc", none, "/"⟩ ⟨"/invoices/list", none⟩
      = ⟨"/invoices/list", some ("Bearer " ++ "abc")⟩ :=
  ⟨rfl,
   ((request_interceptors_attach_bearer ⟨some "abc", none, "/"⟩
      ⟨"/invoices/list", none⟩).1 "abc" rfl (by decide)).1⟩

/-- C3, counterexample: the GST verification handler's catch block
(GSTCompliance, components/Dashboard.tsx) surfaces the failure in the inline
error panel but writes nothing to the console, contradicting the claim that
every page component's failed API call is logged to the console. -/
theorem gst_verify_failure_not_logged :
    (catchEffect .verifyGst ⟨some "boom", none⟩).consoleLogs = [] ∧
    (catchEffect .verifyGst ⟨some "boom", none⟩).surfaced = true := by
  constructor
  · rfl
  · decide

/-- C3, amended: every failed page API call is caught inside that call's own
handler, and each handler logs the error to the console or surfaces it to the
user (inline error panel, blocking alert dialog, or appended chat error
message); every handler does both, except that the GST verify handler
surfaces without logging and the older pages app's invoice-list and dashboard
fetch handlers log without surfacing. -/
theorem page_call_failures_logged_or_surfaced (h : PageCall) (err : ApiError) :
    ((catchEffect h err).consoleLogs ≠ [] ∨ (catchEffect h err).surfaced = true) ∧
    (h ≠ .verifyGst → h ≠ .pagesFetchInvoices → h ≠ .pagesFetchDashboard →
      (catchEffect h err).consoleLogs ≠ [] ∧ (catchEffect h err).surfaced = true) := by
  cases h <;>
    simp [catchEffect, loadInvoicesCatch, handleDownloadCatch, handleDeleteCatch,
      handleSendMessageCatch, gstVerifyCatch, fetchAnalyticsCatch,
      pagesFetchInvoicesCatch, pagesFetchDashboardCatch, pagesHandleDownloadCatch,
      HandlerOutput.surfaced]

/-- Witness for the amended C3 theorem at the invoice-list handler and a
concrete error. -/
theorem page_call_failures_logged_or_surfaced_witness :
    (PageCall.loadInvoices ≠ .verifyGst) ∧
    (catchEffect .loadInvoices ⟨none, none⟩).consoleLogs ≠ [] ∧
    (catchEffect .loadInvoices ⟨none, none⟩).surfaced = true :=
  ⟨by decide,
   (page_call_failures_logged_or_surfaced .loadInvoices ⟨none, none⟩).2
      (by decide) (by decide) (by decide)⟩

/-- C4, counterexample: a confirmed, successful invoice deletion issues only
the DELETE request — the handler never refetches the invoice list,
contradicting the claim that every mutation is followed by a refetch of the
affected list. -/
theorem delete_issues_no_refetch :
    (handleDelete true true "1"
        [⟨"1", "INV-1", "c1", "2024-01-01", "2024-02-01", 100, "pending"⟩,
         ⟨"2", "INV-2", "c2", "2024-01-02", "2024-02-02", 200, "paid"⟩]).2
      = [.deleteInvoice "1"] ∧
    ApiRequest.listInvoices ∉
      (handleDelete true true "1"
        [⟨"1", "INV-1", "c1", "2024-01-01", "2024-02-01", 100, "pending"⟩,
         ⟨"2", "INV-2", "c2", "2024-01-02", "2024-02-02", 200, "paid"⟩]).2 := by
  constructor
  · rfl
  · decide

/-- C4, amended: a page mutation is delegated to the backend and the page then
updates its rendered list locally — `handleDelete` filters the deleted id out
of its state rather than refetching — so when the rendered list matched the
backend list before the mutation and the backend delete removes exactly the
invoices with the confirmed id, the rendered list after a successful delete
equals the list the backend would return. -/
theorem delete_filters_locally_matching_backend (id : String)
    (rendered backend backendAfter : List Invoice)
    (hsync : rendered = backend)
    (hdelete : backendAfter = backend.filter (fun inv => inv.id != id)) :
    (handleDelete true true id rendered).1 = backendAfter ∧
    (handleDelete true true id rendered).2 = [.deleteInvoice id] ∧
    ApiRequest.listInvoices ∉ (handleDelete true true id rendered).2 := by
  subst hsync
  subst hdelete
  refine ⟨rfl, rfl, ?_⟩
  simp [handleDelete]

/-- Witness for the amended C4 theorem on a concrete two-invoice list. -/
theorem delete_filters_locally_matching_backend_witness :
    ([⟨"1", "INV-1", "c1", "d", "d", 100, "pending"⟩,
      ⟨"2", "INV-2", "c2", "d", "d", 200, "paid"⟩] : List Invoice)
      = [⟨"1", "INV-1", "c1", "d", "d", 100, "pending"⟩,
         ⟨"2", "INV-2", "c2", "d", "d", 200, "paid"⟩] ∧
    (handleDelete true true "1"
        [⟨"1", "INV-1", "c1", "d", "d", 100, "pending"⟩,
         ⟨"2", "INV-2", "c2", "d", "d", 200, "paid"⟩]).1
      = [⟨"2", "INV-2", "c2", "d", "d", 200, "paid"⟩] :=
  ⟨rfl,
   (delete_filters_locally_matching_backend "1"
      [⟨"1", "INV-1", "c1", "d", "d", 100, "pending"⟩,
       ⟨"2", "INV-2", "c2", "d", "d", 200, "paid"⟩]
      [⟨"1", "INV-1", "c1", "d", "d", 100, "pending"⟩,
       ⟨"2", "INV-2", "c2", "d", "d", 200, "paid"⟩]
      [⟨"2", "INV-2", "c2", "d", "d", 200, "paid"⟩]
      rfl (by decide)).1⟩

/-- C5, counterexample: local storage can hold the empty string under the
token key; the mount-time checks in both apps use JS truthiness (`if
(token)`, `!!token`), so a present-but-empty token entry leaves the
authenticated flag false, contradicting the claim that the flag is true if
and only if a token entry exists. -/
theorem empty_token_entry_not_authenticated :
    (BrowserState.mk (some "") none "/").token.isSome = true ∧
    appMountAuthenticated ⟨some "", none, "/"⟩ = false ∧
    checkAuth ⟨some "", none, "/"⟩ = false := by
  refine ⟨rfl, ?_, ?_⟩ <;> decide

/-- C5, amended: on mount both apps set the authenticated flag to true if and
only if local storage holds a nonempty token entry (JS truthiness), and that
flag is what guards the authenticated screens: the components `App` renders
the main app rather than Login/Register exactly when the flag is set, and the
pages `App`'s protected routes render the page rather than redirecting to
/login exactly when the flag is set. -/
theorem auth_flag_iff_nonempty_token (store : BrowserState) (showRegister : Bool) :
    (appMountAuthenticated store = jsTruthy store.token) ∧
    (checkAuth store = jsTruthy store.token) ∧
    (appMountAuthenticated store = true ↔ ∃ t, store.token = some t ∧ t ≠ "") ∧
    (appRender (appMountAuthenticated store) showRegister = .mainApp ↔
      jsTruthy store.token = true) ∧
    (protectedRoute (checkAuth store) = .page ↔ jsTruthy store.token = true) := by
  obtain ⟨tok, u, loc⟩ := store
  cases tok with
  | none =>
      cases showRegister <;>
        simp [appMountAuthenticated, checkAuth, jsTruthy, appRender, protectedRoute]
  | some v =>
      by_cases hv : v = "" <;> cases showRegister <;>
        simp [appMountAuthenticated, checkAuth, jsTruthy, appRender, protectedRoute, hv]

/-- Witness for the amended C5 theorem at a concrete nonempty stored token. -/
theorem auth_flag_iff_nonempty_token_witness :
    appMountAuthenticated ⟨some "tok", none, "/"⟩ = jsTruthy (some "tok") ∧
    (appRender (appMountAuthenticated ⟨some "tok", none, "/"⟩) false = .mainApp ↔
      jsTruthy (some "tok") = true) :=
  ⟨(auth_flag_iff_nonempty_token ⟨some "tok", none, "/"⟩ false).1,
   (auth_flag_iff_nonempty_token ⟨some "tok", none, "/"⟩ false).2.2.2.1⟩

/-- C6, counterexample: the GST form only rejects blank input, so typing
"abc" yields the stored value "ABC", the submission is accepted, and the
string sent as the gstin query parameter has 3 characters, not 15. -/
theorem short_gstin_accepted :
    (handleVerify (.failure none)
        { gstin := gstInputUpdate "abc", loading := false, result := none, error := "" }).2
      = [.verifyGst (gstInputUpdate "abc")] ∧
    (gstInputUpdate "abc").length = 3 ∧
    gstInputUpdate "abc" = "ABC" := by
  refine ⟨?_, ?_, ?_⟩ <;> decide

/-- C6, amended: every GSTIN the GST compliance form submits has a nonempty
trimmed value and at most 15 characters — the input's maxLength caps the
stored value at 15 — but the form does not enforce an exact 15-character
length. -/
theorem accepted_gstin_nonblank_at_most_15 (raw : String) (o : VerifyOutcome)
    (s : GstState) (hg : s.gstin = gstInputUpdate raw)
    (hne : jsTrim s.gstin ≠ "") :
    (handleVerify o s).2 = [.verifyGst s.gstin] ∧
    s.gstin.length ≤ 15 := by
  constructor
  · simp [handleVerify, hne]
  · rw [hg]
    show (jsToUpper (jsMaxLength 15 raw)).length ≤ 15
    simp only [jsToUpper, jsMaxLength, String.length, List.length_map,
      List.length_take]
    omega

/-- Witness for the amended C6 theorem at a concrete accepted submission. -/
theorem accepted_gstin_nonblank_at_most_15_witness :
    (GstState.mk (gstInputUpdate "abc") false none "").gstin = gstInputUpdate "abc" ∧
    jsTrim (GstState.mk (gstInputUpdate "abc") false none "").gstin ≠ "" ∧
    (GstState.mk (gstInputUpdate "abc") false none "").gstin.length ≤ 15 :=
  ⟨rfl, by decide,
   (accepted_gstin_nonblank_at_most_15 "abc" (.failure none)
      ⟨gstInputUpdate "abc", false, none, ""⟩ rfl (by decide)).2⟩

/-- C7, confirmed: over any event sequence, the DashboardAnalytics component
issues exactly one dashboard-overview request per fetch trigger (the mount
effect or a Retry click), whatever the outcomes were — a failed call is never
retried automatically and no backoff or recovery logic issues extra
requests. -/
theorem no_automatic_retry (s : AnalyticsState)
    (trace : List (AnalyticsEvent × FetchOutcome)) :
    (analyticsRun s trace).2.length =
      (trace.filter (fun p => p.1.triggersFetch)).length ∧
    ∀ r ∈ (analyticsRun s trace).2, r = ApiRequest.dashboardOverview := by
  induction trace generalizing s with
  | nil => simp [analyticsRun]
  | cons p rest ih =>
      obtain ⟨e, o⟩ := p
      obtain ⟨ihl, ihm⟩ := ih (analyticsStep s e o).1
      cases e <;> cases o <;>
        (simp_all [analyticsRun, analyticsStep, fetchDashboardData,
          AnalyticsEvent.triggersFetch]
         exact ihm)

/-- Witness for C7 on a concrete trace: a mount whose fetch fails, idle time,
then one user Retry — exactly two requests, both the overview fetch. -/
theorem no_automatic_retry_witness :
    (analyticsRun ⟨none, true, none⟩
        [(.mount, .failure ⟨none, none⟩), (.tick, .failure ⟨none, none⟩),
         (.retryClick, .success ⟨1, 2, 3, 4, 5⟩)]).2.length = 2 :=
  (no_automatic_retry ⟨none, true, none⟩
      [(.mount, .failure ⟨none, none⟩), (.tick, .failure ⟨none, none⟩),
       (.retryClick, .success ⟨1, 2, 3, 4, 5⟩)]).1.trans (by decide)

/-- C8, confirmed: declining the confirmation dialog or a failed backend call
leaves the rendered invoice list unchanged; a confirmed successful delete
yields a sublist of the original list (relative order preserved) that keeps
every invoice whose id differs from the confirmed id unchanged and contains
no invoice with the confirmed id. -/
theorem delete_removes_exactly_target (confirmed succeeded : Bool) (id : String)
    (invoices : List Invoice) :
    (confirmed = false → handleDelete confirmed succeeded id invoices = (invoices, [])) ∧
    (confirmed = true → succeeded = false →
      (handleDelete confirmed succeeded id invoices).1 = invoices) ∧
    (confirmed = true → succeeded = true →
      (handleDelete confirmed succeeded id invoices).1.Sublist invoices ∧
      (∀ inv ∈ invoices, inv.id ≠ id →
        inv ∈ (handleDelete confirmed succeeded id invoices).1) ∧
      (∀ inv ∈ (handleDelete confirmed succeeded id invoices).1,
        inv.id ≠ id ∧ inv ∈ invoices)) := by
  refine ⟨?_, ?_, ?_⟩
  · intro hc
    simp [handleDelete, hc]
  · intro hc hs
    simp [handleDelete, hc, hs]
  · intro hc hs
    subst hc
    subst hs
    have hres : (handleDelete true true id invoices).1 =
        invoices.filter (fun inv => inv.id != id) := by
      simp [handleDelete]
    rw [hres]
    refine ⟨List.filter_sublist _, ?_, ?_⟩
    · intro inv hmem hne
      simp only [List.mem_filter, bne_iff_ne]
      exact ⟨hmem, hne⟩
    · intro inv hmem
      simp only [List.mem_filter, bne_iff_ne] at hmem
      exact ⟨hmem.2, hmem.1⟩

/-- Witness for C8 on a concrete three-invoice list, deleting id "2". -/
theorem delete_removes_exactly_target_witness :
    (true = true) ∧
    (handleDelete true true "2"
        [⟨"1", "A", "c", "d", "d", 1, "paid"⟩,
         ⟨"2", "B", "c", "d", "d", 2, "pending"⟩,
         ⟨"3", "C", "c", "d", "d", 3, "overdue"⟩]).1.Sublist
      [⟨"1", "A", "c", "d", "d", 1, "paid"⟩,
       ⟨"2", "B", "c", "d", "d", 2, "pending"⟩,
       ⟨"3", "C", "c", "d", "d", 3, "overdue"⟩] :=
  ⟨rfl,
   ((delete_removes_exactly_target true true "2"
      [⟨"1", "A", "c", "d", "d", 1, "paid"⟩,
       ⟨"2", "B", "c", "d", "d", 2, "pending"⟩,
       ⟨"3", "C", "c", "d", "d", 3, "overdue"⟩]).2.2 rfl rfl).1⟩

/-- C9, confirmed: submitting the chat form with an empty or whitespace-only
input, or while a previous query is loading, sends no request and leaves the
message list, the input field, and the loading flag unchanged. -/
theorem blank_or_loading_sends_nothing (now : String) (o : ChatOutcome)
    (s : ChatState) (h : jsTrim s.inputMessage = "" ∨ s.loading = true) :
    handleSendMessage now o s = (s, []) := by
  unfold handleSendMessage
  rw [if_pos h]

/-- Witness for C9 at a whitespace-only input. -/
theorem blank_or_loading_sends_nothing_witness :
    ((jsTrim "   " = "" ∨ false = true)) ∧
    handleSendMessage "t0" (.failure ⟨none, none⟩) ⟨[], "   ", false⟩
      = (⟨[], "   ", false⟩, []) :=
  ⟨Or.inl (by decide),
   blank_or_loading_sends_nothing "t0" (.failure ⟨none, none⟩) ⟨[], "   ", false⟩
      (Or.inl (by decide))⟩

/-- C10, confirmed: each accepted GST verification first clears both the
error and the previous result; when the run completes, on success the result
is the backend response and the error is empty, and on failure the error is
nonempty and the result is null — at most one of the two is ever set. -/
theorem verify_error_xor_result (s : GstState) (hne : jsTrim s.gstin ≠ "") :
    ((handleVerifyStart s).error = "" ∧ (handleVerifyStart s).result = none) ∧
    (∀ r, (handleVerify (.success r) s).1.result = some r ∧
      (handleVerify (.success r) s).1.error = "") ∧
    (∀ d, (handleVerify (.failure d) s).1.error ≠ "" ∧
      (handleVerify (.failure d) s).1.result = none) := by
  refine ⟨⟨rfl, rfl⟩, ?_, ?_⟩
  · intro r
    constructor <;> simp [handleVerify, hne, handleVerifyStart, handleVerifyFinish]
  · intro d
    constructor
    · simp only [handleVerify, if_neg hne, handleVerifyFinish, handleVerifyStart]
      exact jsOr_ne_of_default_ne d "Failed to verify GST number" (by decide)
    · simp [handleVerify, hne, handleVerifyStart, handleVerifyFinish]

/-- Witness for C10 at a concrete GSTIN and a failed verification with an
empty detail string. -/
theorem verify_error_xor_result_witness :
    (jsTrim "29ABCDE1234F1Z5" ≠ "") ∧
    (handleVerify (.failure (some ""))
        ⟨"29ABCDE1234F1Z5", false, none, "old"⟩).1.error ≠ "" :=
  ⟨by decide,
   ((verify_error_xor_result ⟨"29ABCDE1234F1Z5", false, none, "old"⟩
      (by decide)).2.2 (some "")).1⟩

end SmartBiz
